import Mathlib

/-!
Shallow embedding of the Conversation Session Controller of `src/src/App.jsx`
(a single-page chat frontend).  The component state (`input`, `messages`,
`loading`, `status`, `abortControllerRef`) is modelled as an explicit record,
the async `sendMessage` handler is split at its suspension point into a
synchronous prefix (`submitStart`) and a settlement continuation (`settle`),
and JSON response bodies are modelled by an inductive `Json` type.

Modelling conventions:
* `AbortController` handles are natural numbers drawn from a fresh counter;
  `abortControllerRef.current` becomes the `slot : Option Nat` field.
* JavaScript `undefined` and `null` both collapse to `Option.none` at the
  points where the code uses optional chaining; where that loses a
  distinction the final extracted value is unaffected (property access on a
  primitive yields `undefined`, which is falsy, exactly like a missing key).
* JSON numbers are modelled as `Int` (floating-point formatting is not
  exercised by any claim).
* `String.slice(0, 2000)` is modelled by `String.take 2000`; JavaScript
  slices UTF-16 code units while Lean takes characters, which agree on all
  basic-multilingual-plane text.
* `String.prototype.trim` is modelled by `jsTrim` below (strip leading and
  trailing whitespace); the exact whitespace alphabet differs from
  JavaScript's only on exotic Unicode spaces no claim exercises.
-/

namespace ArcChat

/-- Embedding of `String.prototype.trim`: strip leading and trailing
whitespace characters. -/
def jsTrim (s : String) : String :=
  String.mk (((s.data.dropWhile Char.isWhitespace).reverse.dropWhile
    Char.isWhitespace).reverse)

/-- JSON values, as produced by `response.json()`. -/
inductive Json where
  | null : Json
  | bool : Bool → Json
  | num : Int → Json
  | str : String → Json
  | arr : List Json → Json
  | obj : List (String × Json) → Json
deriving Repr

/-- JavaScript truthiness of a JSON value: `null`, `false`, `0` and `""` are
falsy; every array and object is truthy. -/
def truthy : Json → Bool
  | .null => false
  | .bool b => b
  | .num n => n != 0
  | .str s => s != ""
  | .arr _ => true
  | .obj _ => true

/-- Truthiness of an optionally-present value: JavaScript `undefined`
(modelled as `none`) is falsy. -/
def truthyOpt : Option Json → Bool
  | none => false
  | some j => truthy j

/-- Property access `x?.k` for the keys this code uses (`output`,
`generated_text`, `text`, `error`): defined on objects, `undefined`
(i.e. `none`) on every other JSON value — none of these keys is a built-in
property of strings, arrays, numbers or booleans. -/
def jfield : Json → String → Option Json
  | .obj kvs, k => kvs.lookup k
  | _, _ => none

/-- Index access `x?.[0]`: first element of an array, the `"0"` property of
an object, `undefined` otherwise.  (On a string, `s[0]` is a one-character
string, but the chains below immediately access a named property of the
result, which yields `undefined` either way, so collapsing it to `none` does
not change any chain's value.) -/
def index0 : Json → Option Json
  | .arr (x :: _) => some x
  | .obj kvs => kvs.lookup "0"
  | _ => none

/-- The optional chain `data?.output?.[0]?.f` from the reply extractor. -/
def chainOutput0 (data : Json) (f : String) : Option Json :=
  (jfield data "output").bind fun o => (index0 o).bind fun x => jfield x f

/-- One hexadecimal digit, lowercase (as emitted by `JSON.stringify` for
control-character escapes). -/
def hexDigit (n : Nat) : Char :=
  if n < 10 then Char.ofNat (48 + n) else Char.ofNat (87 + n)

/-- Four-digit hexadecimal rendering used in `\uXXXX` escapes. -/
def hex4 (n : Nat) : String :=
  String.mk [hexDigit (n / 4096 % 16), hexDigit (n / 256 % 16),
             hexDigit (n / 16 % 16), hexDigit (n % 16)]

/-- Escaping of one character inside a serialized string literal, as
`JSON.stringify` performs it. -/
def escapeChar (c : Char) : String :=
  if c = '"' then "\\\""
  else if c = '\\' then "\\\\"
  else if c = '\n' then "\\n"
  else if c = '\t' then "\\t"
  else if c = '\r' then "\\r"
  else if c = Char.ofNat 8 then "\\b"
  else if c = Char.ofNat 12 then "\\f"
  else if c.toNat < 32 then "\\u" ++ hex4 c.toNat
  else String.singleton c

/-- A JSON string literal with its quotes, as `JSON.stringify` renders it. -/
def escapeString (s : String) : String :=
  "\"" ++ String.join (s.data.map escapeChar) ++ "\""

mutual

/-- Serialization of a (parsed, hence acyclic) JSON value, as
`JSON.stringify` renders it. -/
def stringify : Json → String
  | .null => "null"
  | .bool true => "true"
  | .bool false => "false"
  | .num n => toString n
  | .str s => escapeString s
  | .arr xs => "[" ++ stringifyList xs ++ "]"
  | .obj kvs => "\x7b" ++ stringifyObj kvs ++ "\x7d"

/-- Comma-separated serialization of array elements. -/
def stringifyList : List Json → String
  | [] => ""
  | [x] => stringify x
  | x :: xs => stringify x ++ "," ++ stringifyList xs

/-- Comma-separated serialization of object entries. -/
def stringifyObj : List (String × Json) → String
  | [] => ""
  | [(k, v)] => escapeString k ++ ":" ++ stringify v
  | (k, v) :: kvs => escapeString k ++ ":" ++ stringify v ++ "," ++ stringifyObj kvs

end

mutual

/-- JavaScript string coercion `String(x)` / template-literal interpolation
of a JSON value: objects render as "[object Object]", arrays join their
elements with commas (`Array.prototype.toString`), `null` inside an array
joins as the empty string. -/
def jsToString : Json → String
  | .null => "null"
  | .bool true => "true"
  | .bool false => "false"
  | .num n => toString n
  | .str s => s
  | .arr xs => jsToStringList xs
  | .obj _ => "[object Object]"

/-- Join of array elements with commas (`Array.prototype.join`), where
`null` elements render empty. -/
def jsToStringList : List Json → String
  | [] => ""
  | [x] => jsToStringElem x
  | x :: xs => jsToStringElem x ++ "," ++ jsToStringList xs

/-- One element under `Array.prototype.join`: `null` becomes "". -/
def jsToStringElem : Json → String
  | .null => ""
  | j => jsToString j

end

/-- Reply extraction for a successful (2xx) response, embedded from the
`else` branch of `sendMessage`:

  if (data?.output?.[0]?.generated_text) reply = data.output[0].generated_text;
  else if (data?.output?.[0]?.text) reply = data.output[0].text;
  else if (typeof data === "string") reply = data;
  else reply = JSON.stringify(data).slice(0, 2000);

The surrounding `try`/`catch` is dead on parsed JSON input (guarded property
reads cannot throw and `JSON.stringify` cannot encounter a cycle), so the
embedding is total.  The extracted value is returned as raw JSON: when a
truthy `generated_text`/`text` is not a string, the code stores that raw
value as the message text. -/
def extractReply (data : Json) : Json :=
  if truthyOpt (chainOutput0 data "generated_text") then
    (chainOutput0 data "generated_text").getD .null
  else if truthyOpt (chainOutput0 data "text") then
    (chainOutput0 data "text").getD .null
  else
    match data with
    | .str _ => data
    | _ => .str ((stringify data).take 2000)

/-- The reply-extraction precedence exactly as the specification words it:
four branches tried in order, stopping at the first match —
(a) `body.output[0].generated_text` if present and truthy,
(b) `body.output[0].text` if present and truthy,
(c) the body itself if it is a string,
(d) the body serialized to JSON, truncated to the first 2000 characters. -/
def extractReplySpec (data : Json) : Json :=
  match chainOutput0 data "generated_text" with
  | some v =>
    if truthy v then v
    else match chainOutput0 data "text" with
      | some w =>
        if truthy w then w
        else match data with
          | .str s => .str s
          | _ => .str ((stringify data).take 2000)
      | none => match data with
          | .str s => .str s
          | _ => .str ((stringify data).take 2000)
  | none => match chainOutput0 data "text" with
      | some w =>
        if truthy w then w
        else match data with
          | .str s => .str s
          | _ => .str ((stringify data).take 2000)
      | none => match data with
          | .str s => .str s
          | _ => .str ((stringify data).take 2000)

/-- A conversation message: `{ role: 'user' | 'assistant', text }`.  The text
is kept as a raw JSON value because the success branch can store a non-string
extracted value; ordinary messages carry `Json.str`. -/
structure Msg where
  role : String
  text : Json
deriving Repr

/-- The component state of `App`: the pending input buffer, the ordered
message log, the busy flag (`loading`), the warm-up status string, the
request slot (`abortControllerRef.current`, as a handle id), and a fresh
counter from which new `AbortController` handle ids are drawn.  `aborted`
records the handles whose `abort()` call completed. -/
structure AppState where
  input : String
  messages : List Msg
  loading : Bool
  status : String
  slot : Option Nat
  nextHandle : Nat
  aborted : List Nat
deriving Repr

/-- The initial component state produced by the `useState` initializers. -/
def initialState : AppState :=
  { input := "", messages := [], loading := false, status := "idle",
    slot := none, nextHandle := 0, aborted := [] }

/-- Observable side effects, in program order. -/
inductive Event where
  /-- The startup probe issued `GET /ping`. -/
  | pingRequest
  /-- A message was appended: `setMessages(m => [...m, msg])`. -/
  | appendMsg (m : Msg)
  /-- Handle `h` had its `abort()` invoked. -/
  | abortCall (h : Nat)
  /-- A `POST /chat` request was issued with the given prompt, bound to
handle `h` and its cancellation signal. -/
  | fetchChat (h : Nat) (prompt : String)
deriving Repr

/-- First half of the startup `useEffect`: `setStatus("warming")` and the
`fetch` of `GET /ping` (response not yet awaited). -/
def probeStart (s : AppState) : AppState × List Event :=
  ({ s with status := "warming" }, [.pingRequest])

/-- Second half of the startup probe: on fulfilment of the `fetch` promise
set status `ready`, on rejection set `idle`.  (The code never inspects the
response, so only success/failure of the call matters.) -/
def probeSettle (s : AppState) (ok : Bool) : AppState × List Event :=
  ({ s with status := if ok then "ready" else "idle" }, [])

/-- The synchronous prefix of `sendMessage`, up to its first `await`:
reject whitespace-only input, append the user message, clear the input,
set the busy flag, best-effort-abort any previous handle in the slot
(`try { ... } catch {}` — `abortFails` says whether that call threw; the
failure is swallowed either way), create a fresh handle, store it in the
slot, and issue the `POST /chat` request bound to it.  Returns the new
state, the emitted events in order, and the handle of the issued request
(`none` when the call was a no-op). -/
def submitStart (s : AppState) (abortFails : Bool) :
    AppState × List Event × Option Nat :=
  if jsTrim s.input = "" then (s, [], none)
  else
    let prompt := jsTrim s.input
    let s1 := { s with
      messages := s.messages ++ [Msg.mk "user" (.str prompt)],
      input := "",
      loading := true }
    let withAbort : AppState × List Event :=
      match s1.slot with
      | some h =>
        ({ s1 with aborted := if abortFails then s1.aborted else s1.aborted ++ [h] },
         [.abortCall h])
      | none => (s1, [])
    let n := withAbort.1.nextHandle
    ({ withAbort.1 with slot := some n, nextHandle := n + 1 },
     withAbort.2 ++ [.fetchChat n prompt], some n)

/-- How one logical exchange settles, covering every terminal path of the
`try`/`catch` in `sendMessage`. -/
inductive Outcome where
  /-- Success: `res.ok` and `res.json()` fulfilled with `body`. -/
  | ok (body : Json)
  /-- Malformed success body: `res.ok` but `res.json()` rejected, landing
  in the `catch` with a non-abort error. -/
  | okBadJson
  /-- HTTP failure status: `statusText` is the status text and `errBody`
  the parsed JSON error body, or `none` when parsing failed
  (`.catch(()=>null)`). -/
  | httpErr (statusText : String) (errBody : Option Json)
  /-- The fetch rejected with `err.name === "AbortError"` — the handle was
  aborted by a newer `sendMessage` call (the only caller of `abort()`). -/
  | abortError
  /-- Any other rejection (network failure etc.). -/
  | netError

/-- The error text of the `!res.ok` branch:
"⚠️ Error: " followed by `err?.error || res.statusText` under
template-literal string coercion. -/
def httpErrText (statusText : String) (errBody : Option Json) : String :=
  let e := errBody.bind fun b => jfield b "error"
  "⚠️ Error: " ++ (if truthyOpt e then jsToString (e.getD .null) else statusText)

/-- The single assistant message appended when an exchange settles with
outcome `o`, one per terminal path of `sendMessage`. -/
def settleMsg : Outcome → Msg
  | .ok body => ⟨"assistant", extractReply body⟩
  | .okBadJson => ⟨"assistant", .str "⚠️ Network error or server error"⟩
  | .httpErr st errBody => ⟨"assistant", .str (httpErrText st errBody)⟩
  | .abortError => ⟨"assistant", .str "⚠️ Request cancelled (newer request arrived)."⟩
  | .netError => ⟨"assistant", .str "⚠️ Network error or server error"⟩

/-- The settlement continuation of `sendMessage`: append the reconciliation
message for the outcome, then run the `finally` block —
`setLoading(false); abortControllerRef.current = null;` — which clears the
busy flag and, unconditionally, the request slot. -/
def settle (s : AppState) (o : Outcome) : AppState × List Event :=
  ({ s with
      messages := s.messages ++ [settleMsg o],
      loading := false,
      slot := none },
   [.appendMsg (settleMsg o)])

/-- External stimuli delivered to the mounted component after startup. -/
inductive Action where
  /-- The input `onChange` handler: `setInput(t)`. -/
  | setInput (t : String)
  /-- The handler `sendMessage()` is invoked (Enter key or Send button). -/
  | submit (abortFails : Bool)
  /-- A pending exchange settles with outcome `o`. -/
  | settleReq (o : Outcome)

/-- One event-loop step of the mounted component. -/
def step (s : AppState) (a : Action) : AppState × List Event :=
  match a with
  | .setInput t => ({ s with input := t }, [])
  | .submit af => ((submitStart s af).1, (submitStart s af).2.1)
  | .settleReq o => settle s o

/-- Run a list of stimuli, collecting emitted events in order. -/
def steps (s : AppState) : List Action → AppState × List Event
  | [] => (s, [])
  | a :: as =>
    let r := step s a
    let r' := steps r.1 as
    (r'.1, r.2 ++ r'.2)

/-- A whole session: mount (which fires the startup probe exactly once,
from the empty-dependency `useEffect`), the probe settles with `probeOk`,
then arbitrary user/network activity. -/
def appRun (probeOk : Bool) (acts : List Action) : AppState × List Event :=
  let r1 := probeStart initialState
  let r2 := probeSettle r1.1 probeOk
  let r3 := steps r2.1 acts
  (r3.1, r1.2 ++ r2.2 ++ r3.2)

/-- Count of `GET /ping` requests in an event trace. -/
def countPing : List Event → Nat
  | [] => 0
  | .pingRequest :: es => countPing es + 1
  | _ :: es => countPing es

/-- Count of `POST /chat` requests in an event trace. -/
def countFetch : List Event → Nat
  | [] => 0
  | .fetchChat _ _ :: es => countFetch es + 1
  | _ :: es => countFetch es

/-- Count of appended assistant messages in an event trace. -/
def countAssistant : List Event → Nat
  | [] => 0
  | .appendMsg m :: es => (if m.role = "assistant" then 1 else 0) + countAssistant es
  | _ :: es => countAssistant es

/-! ## Helper lemmas shared by several claims -/

/-- An accepted `sendMessage` stores the fresh handle in the slot and bumps
the handle counter, regardless of whether a previous handle was aborted and
of whether that abort threw. -/
theorem submitStart_slot (s : AppState) (af : Bool) (h : jsTrim s.input ≠ "") :
    (submitStart s af).1.slot = some s.nextHandle ∧
    (submitStart s af).1.nextHandle = s.nextHandle + 1 := by
  unfold submitStart
  rw [if_neg h]
  cases hs : s.slot <;> simp [hs]

/-- An accepted `sendMessage` appends exactly the one user message carrying
the trimmed prompt. -/
theorem submitStart_messages (s : AppState) (af : Bool) (h : jsTrim s.input ≠ "") :
    (submitStart s af).1.messages = s.messages ++ [Msg.mk "user" (.str (jsTrim s.input))] := by
  unfold submitStart
  rw [if_neg h]
  cases hs : s.slot <;> simp [hs]

/-- Settlement appends exactly the one reconciliation message. -/
theorem settle_messages (s : AppState) (o : Outcome) :
    (settle s o).1.messages = s.messages ++ [settleMsg o] := rfl

/-- Settlement clears the busy flag and, unconditionally, the request slot
(the `finally` block). -/
theorem settle_loading_slot (s : AppState) (o : Outcome) :
    (settle s o).1.loading = false ∧ (settle s o).1.slot = none := ⟨rfl, rfl⟩

/-- No stimulus after mount ever changes the status field: `setStatus` is
called only from the startup effect. -/
theorem step_status (s : AppState) (a : Action) : (step s a).1.status = s.status := by
  cases a with
  | setInput t => rfl
  | submit af =>
    show (submitStart s af).1.status = s.status
    unfold submitStart
    by_cases h : jsTrim s.input = ""
    · rw [if_pos h]
    · rw [if_neg h]
      cases hs : s.slot <;> simp [hs]
  | settleReq o => rfl

/-- Status is preserved across any run of post-mount stimuli. -/
theorem steps_status (s : AppState) (acts : List Action) :
    (steps s acts).1.status = s.status := by
  induction acts generalizing s with
  | nil => rfl
  | cons a as ih => simpa [steps, ih] using step_status s a

/-- No stimulus after mount ever issues a `GET /ping`. -/
theorem countPing_step (s : AppState) (a : Action) : countPing (step s a).2 = 0 := by
  cases a with
  | setInput t => rfl
  | submit af =>
    show countPing (submitStart s af).2.1 = 0
    unfold submitStart
    by_cases h : jsTrim s.input = ""
    · rw [if_pos h]
      rfl
    · rw [if_neg h]
      cases hs : s.slot <;> simp [hs, countPing]
  | settleReq o => rfl

/-- No run of post-mount stimuli issues a `GET /ping`. -/
theorem countPing_steps (s : AppState) (acts : List Action) :
    countPing (steps s acts).2 = 0 := by
  induction acts generalizing s with
  | nil => rfl
  | cons a as ih =>
    have hsplit : countPing ((step s a).2 ++ (steps (step s a).1 as).2) =
        countPing (step s a).2 + countPing (steps (step s a).1 as).2 := by
      generalize (steps (step s a).1 as).2 = tl
      induction (step s a).2 with
      | nil => simp [countPing]
      | cons e es ihe => cases e <;> simp [countPing, ihe] <;> omega
    simp only [steps]
    rw [hsplit, countPing_step, ih]

/-! ## Concrete scenario used by the overlap counterexamples -/

/-- State after submission N (prompt "first") is accepted and in flight. -/
def overlapState1 : AppState := (submitStart { initialState with input := "first" } false).1

/-- State after submission N+1 (prompt "second") is accepted while N is
still in flight: N's handle 0 was aborted and N+1's handle 1 owns the slot. -/
def overlapState2 : AppState := (submitStart { overlapState1 with input := "second" } false).1

/-- Stimulus list realizing the two overlapping submissions followed by N's
settlement (N was the aborted exchange, so its outcome is the abort error);
N+1's exchange (handle 1) has not settled. -/
def overlapTrace : List Action :=
  [.setInput "first", .submit false, .setInput "second", .submit false,
   .settleReq .abortError]

/-! ## Claims -/

/-- C3: for every successful HTTP response the appended assistant text
follows the four-branch precedence, stopping at the first match —
`body.output[0].generated_text` if present and truthy, else
`body.output[0].text` if present and truthy, else the body itself when it is
a string, else the body serialized to JSON and truncated to 2000
characters — and the body with output `[ \x7bgenerated_text: "hi"\x7d ]`
renders exactly "hi". -/
theorem c3_reply_precedence :
    (∀ data : Json, extractReply data = extractReplySpec data) ∧
    extractReply (.obj [("output", .arr [.obj [("generated_text", .str "hi")]])])
      = .str "hi" := by
  constructor
  · intro data
    unfold extractReply extractReplySpec
    cases h1 : chainOutput0 data "generated_text" with
    | some v =>
      cases hv : truthy v with
      | true => simp [truthyOpt, hv]
      | false =>
        cases h2 : chainOutput0 data "text" with
        | some w => cases hw : truthy w <;> cases data <;> simp [truthyOpt, hv, hw]
        | none => cases data <;> simp [truthyOpt, hv]
    | none =>
      cases h2 : chainOutput0 data "text" with
      | some w => cases hw : truthy w <;> cases data <;> simp [truthyOpt, hw]
      | none => cases data <;> simp [truthyOpt]
  · rfl

/-- C4: an accepted submit (non-empty trimmed input) appends exactly one
user message carrying the trimmed text; every settlement, the cancelled
case included, appends exactly one assistant message; and every stimulus
only ever appends to the log, never reorders or mutates it in place. -/
theorem c4_exactly_one_append (s : AppState) (af : Bool) (h : jsTrim s.input ≠ "") :
    (submitStart s af).1.messages = s.messages ++ [Msg.mk "user" (.str (jsTrim s.input))] ∧
    (∀ (s' : AppState) (o : Outcome),
      (settle s' o).1.messages = s'.messages ++ [settleMsg o] ∧
      (settleMsg o).role = "assistant") ∧
    (∀ (s' : AppState) (a : Action),
      ∃ tail, (step s' a).1.messages = s'.messages ++ tail) := by
  refine ⟨submitStart_messages s af h, ?_, ?_⟩
  · intro s' o
    refine ⟨settle_messages s' o, ?_⟩
    cases o <;> rfl
  · intro s' a
    cases a with
    | setInput t => exact ⟨[], by simp [step]⟩
    | submit af' =>
      by_cases h' : jsTrim s'.input = ""
      · refine ⟨[], ?_⟩
        show (submitStart s' af').1.messages = _
        unfold submitStart
        rw [if_pos h']
        simp
      · exact ⟨[Msg.mk "user" (.str (jsTrim s'.input))], submitStart_messages s' af' h'⟩
    | settleReq o => exact ⟨[settleMsg o], settle_messages s' o⟩

/-- Witness for C4 at the concrete input " hi ". -/
theorem c4_exactly_one_append_witness :
    jsTrim ({ initialState with input := " hi " } : AppState).input ≠ "" ∧
    ((submitStart { initialState with input := " hi " } false).1.messages
        = ({ initialState with input := " hi " } : AppState).messages
          ++ [Msg.mk "user" (.str (jsTrim ({ initialState with input := " hi " } : AppState).input))] ∧
      (∀ (s' : AppState) (o : Outcome),
        (settle s' o).1.messages = s'.messages ++ [settleMsg o] ∧
        (settleMsg o).role = "assistant") ∧
      (∀ (s' : AppState) (a : Action),
        ∃ tail, (step s' a).1.messages = s'.messages ++ tail)) :=
  ⟨by decide, c4_exactly_one_append { initialState with input := " hi " } false (by decide)⟩

/-- C5: the cancelled exchange's reconciliation message is exactly
"⚠️ Request cancelled (newer request arrived)." and every other
transport-level failure (network error, malformed success body) appends
exactly "⚠️ Network error or server error". -/
theorem c5_failure_messages :
    settleMsg .abortError
      = Msg.mk "assistant" (.str "⚠️ Request cancelled (newer request arrived).") ∧
    settleMsg .netError
      = Msg.mk "assistant" (.str "⚠️ Network error or server error") ∧
    settleMsg .okBadJson
      = Msg.mk "assistant" (.str "⚠️ Network error or server error") ∧
    (∀ (s : AppState) (o : Outcome),
      (settle s o).1.messages = s.messages ++ [settleMsg o]) :=
  ⟨rfl, rfl, rfl, settle_messages⟩

/-- C9: a submit on whitespace-only (or empty) input is a complete no-op —
the state (messages, busy flag, slot, everything) is unchanged, no event is
emitted (hence no HTTP request), and no handle is created. -/
theorem c9_whitespace_noop (s : AppState) (af : Bool) (h : jsTrim s.input = "") :
    submitStart s af = (s, [], none) := by
  unfold submitStart
  rw [if_pos h]

/-- Witness for C9 at the concrete input "  \t ". -/
theorem c9_whitespace_noop_witness :
    jsTrim ({ initialState with input := "  \t " } : AppState).input = "" ∧
    submitStart { initialState with input := "  \t " } false
      = ({ initialState with input := "  \t " }, [], none) :=
  ⟨by decide, c9_whitespace_noop { initialState with input := "  \t " } false (by decide)⟩

/-- C7: when the RequestSlot is occupied, an accepted submit invokes the
occupant's `abort()` strictly before issuing the new `POST /chat` (the event
list is exactly abort-then-fetch), and — the `abort()` being wrapped in a
swallowing guard — the result is the same whether or not the cancellation
call fails: the fresh handle takes the slot and the new exchange is issued. -/
theorem c7_supersession (s : AppState) (h : Nat)
    (hin : jsTrim s.input ≠ "") (hslot : s.slot = some h) :
    ∀ af : Bool,
      (submitStart s af).2.1
        = [.abortCall h, .fetchChat s.nextHandle (jsTrim s.input)] ∧
      (submitStart s af).1.slot = some s.nextHandle ∧
      (submitStart s af).2.2 = some s.nextHandle := by
  intro af
  unfold submitStart
  rw [if_neg hin]
  simp [hslot]

/-- Witness for C7: the second submission of the overlap scenario. -/
theorem c7_supersession_witness :
    jsTrim ({ overlapState1 with input := "second" } : AppState).input ≠ "" ∧
    ({ overlapState1 with input := "second" } : AppState).slot = some 0 ∧
    (∀ af : Bool,
      (submitStart { overlapState1 with input := "second" } af).2.1
        = [.abortCall 0,
           .fetchChat ({ overlapState1 with input := "second" } : AppState).nextHandle
             (jsTrim ({ overlapState1 with input := "second" } : AppState).input)] ∧
      (submitStart { overlapState1 with input := "second" } af).1.slot
        = some ({ overlapState1 with input := "second" } : AppState).nextHandle ∧
      (submitStart { overlapState1 with input := "second" } af).2.2
        = some ({ overlapState1 with input := "second" } : AppState).nextHandle) :=
  ⟨by decide, by decide,
   c7_supersession { overlapState1 with input := "second" } 0 (by decide) (by decide)⟩

/-- C8: over a whole session the startup probe issues exactly one
`GET /ping`; the probe changes nothing but the status field (message log and
RequestSlot untouched, no message event emitted); on success of the call the
status becomes "ready" and on failure "idle", the response never being
inspected; and no post-mount stimulus ever writes the status, so it never
re-enters "warming" after that one transition. -/
theorem c8_startup_probe :
    (∀ (ok : Bool) (acts : List Action), countPing (appRun ok acts).2 = 1) ∧
    (∀ s : AppState, (probeStart s).1 = { s with status := "warming" } ∧
      (probeStart s).2 = [.pingRequest]) ∧
    (∀ (s : AppState) (ok : Bool),
      (probeSettle s ok).1 = { s with status := if ok then "ready" else "idle" } ∧
      (probeSettle s ok).2 = []) ∧
    (∀ (s : AppState) (a : Action), (step s a).1.status = s.status) ∧
    (∀ (ok : Bool) (acts : List Action),
      (appRun ok acts).1.status = (if ok then "ready" else "idle") ∧
      (appRun ok acts).1.status ≠ "warming") := by
  refine ⟨?_, fun s => ⟨rfl, rfl⟩, fun s ok => ⟨rfl, rfl⟩, step_status, ?_⟩
  · intro ok acts
    have h := countPing_steps (probeSettle (probeStart initialState).1 ok).1 acts
    have e : (appRun ok acts).2
        = Event.pingRequest
          :: (steps (probeSettle (probeStart initialState).1 ok).1 acts).2 := rfl
    rw [e]
    simp [countPing, h]
  · intro ok acts
    have h : (appRun ok acts).1.status = (if ok then "ready" else "idle") := by
      show (steps (probeSettle (probeStart initialState).1 ok).1 acts).1.status = _
      rw [steps_status]
      rfl
    refine ⟨h, ?_⟩
    rw [h]
    cases ok <;> decide

/-- C10: the 2000-character truncation applies only to the serialize-the-body
fallback: when extraction succeeds through a truthy `generated_text` string,
a truthy `text` string (with `generated_text` not matching), or a bare
string body, the extracted text is the full string, however long. -/
theorem c10_no_truncation_on_match (d1 d2 : Json) (s1 s2 s3 : String)
    (h1 : chainOutput0 d1 "generated_text" = some (.str s1)) (hs1 : s1 ≠ "")
    (h2 : truthyOpt (chainOutput0 d2 "generated_text") = false)
    (h2t : chainOutput0 d2 "text" = some (.str s2)) (hs2 : s2 ≠ "") :
    extractReply d1 = .str s1 ∧ extractReply d2 = .str s2 ∧
    extractReply (.str s3) = .str s3 := by
  refine ⟨?_, ?_, ?_⟩
  · unfold extractReply
    rw [h1]
    simp [truthyOpt, truthy, hs1]
  · unfold extractReply
    rw [h2, h2t]
    simp [truthyOpt, truthy, hs2]
  · unfold extractReply
    rfl

/-- A 2500-character text, longer than the 2000-character truncation bound. -/
def longText : String := String.mk (List.replicate 2500 'a')

/-- Success body carrying `longText` in `output[0].generated_text`. -/
def longBody1 : Json := .obj [("output", .arr [.obj [("generated_text", .str longText)]])]

/-- Success body carrying `longText` in `output[0].text` only. -/
def longBody2 : Json := .obj [("output", .arr [.obj [("text", .str longText)]])]

/-- Length of `longText` (computed without forcing the 2500-element list). -/
theorem longText_length : longText.length = 2500 := by
  have e : longText.length = (List.replicate 2500 'a').length := rfl
  rw [e, List.length_replicate]

/-- Non-emptiness of `longText`, hence its truthiness as a JSON string. -/
theorem longText_ne_empty : longText ≠ "" := by
  intro h
  have h2 := congrArg String.length h
  rw [longText_length] at h2
  simp at h2

/-- Witness for C10 at 2500-character extracted strings. -/
theorem c10_no_truncation_on_match_witness :
    chainOutput0 longBody1 "generated_text" = some (.str longText) ∧
    longText ≠ "" ∧
    truthyOpt (chainOutput0 longBody2 "generated_text") = false ∧
    chainOutput0 longBody2 "text" = some (.str longText) ∧
    2000 < longText.length ∧
    (extractReply longBody1 = .str longText ∧ extractReply longBody2 = .str longText ∧
      extractReply (.str longText) = .str longText) :=
  ⟨rfl, longText_ne_empty, rfl, rfl, by rw [longText_length]; omega,
   c10_no_truncation_on_match longBody1 longBody2 longText longText longText
     rfl longText_ne_empty rfl rfl longText_ne_empty⟩

/-- C1 fails on the code: the `finally` block runs
`abortControllerRef.current = null` unconditionally, with no check that the
slot still holds the settling attempt's own handle.  Concretely, after
submission N (handle 0) and an overlapping submission N+1 (handle 1, which
owns the slot), N's settlement clears the slot to `none` instead of leaving
N+1's handle in it. -/
theorem c1_counterexample :
    overlapState2.slot = some 1 ∧
    (settle overlapState2 .abortError).1.slot = none ∧
    (settle overlapState2 .abortError).1.slot ≠ some 1 :=
  ⟨by decide, rfl, by decide⟩

/-- C1 amended: when submissions N and N+1 overlap, N+1 does take ownership
of the RequestSlot before N settles, but N's settlement clears the slot
unconditionally — the `finally` block erases N+1's handle rather than
leaving it in place. -/
theorem c1_unconditional_clear (s : AppState) (af af' : Bool) (t : String)
    (o : Outcome) (h1 : jsTrim s.input ≠ "") (h2 : jsTrim t ≠ "") :
    (submitStart { (submitStart s af).1 with input := t } af').1.slot
      = some (submitStart s af).1.nextHandle ∧
    (settle (submitStart { (submitStart s af).1 with input := t } af').1 o).1.slot
      = none := by
  refine ⟨?_, rfl⟩
  exact (submitStart_slot { (submitStart s af).1 with input := t } af' h2).1

/-- Witness for the amended C1 on the concrete overlap scenario. -/
theorem c1_unconditional_clear_witness :
    jsTrim ({ initialState with input := "first" } : AppState).input ≠ "" ∧
    jsTrim "second" ≠ "" ∧
    ((submitStart { (submitStart { initialState with input := "first" } false).1
          with input := "second" } false).1.slot
        = some (submitStart { initialState with input := "first" } false).1.nextHandle ∧
      (settle (submitStart { (submitStart { initialState with input := "first" } false).1
          with input := "second" } false).1 .abortError).1.slot = none) :=
  ⟨by decide, by decide,
   c1_unconditional_clear { initialState with input := "first" } false false "second"
     .abortError (by decide) (by decide)⟩

/-- C2 fails on the code for overlapping submissions: in the trace where
submission N (prompt "first") is superseded by N+1 (prompt "second") and
then N settles with the abort error, two `POST /chat` exchanges were issued
but only one settled — N+1 (handle 1) is still in flight — yet the busy flag
is already false, because N's `finally` ran `setLoading(false)`. -/
theorem c2_counterexample :
    countFetch (steps initialState overlapTrace).2 = 2 ∧
    countAssistant (steps initialState overlapTrace).2 = 1 ∧
    (steps initialState overlapTrace).1.loading = false := by
  refine ⟨rfl, rfl, rfl⟩

/-- C2 amended: every accepted submit sets the busy flag true and every
settlement — success, HTTP error, network error or cancellation — resets it
to false (so it is never left stuck true after any failure path); for
non-overlapping calls this is exactly "true strictly between invocation and
settlement", but an overlapping earlier exchange's settlement resets the
flag while the newer exchange is still in flight. -/
theorem c2_busy_flag (s : AppState) (af : Bool) (h : jsTrim s.input ≠ "") :
    (submitStart s af).1.loading = true ∧
    (∀ (s' : AppState) (o : Outcome), (settle s' o).1.loading = false) := by
  constructor
  · unfold submitStart
    rw [if_neg h]
    cases hs : s.slot <;> simp [hs]
  · intro s' o
    rfl

/-- Witness for the amended C2 at the concrete input "first". -/
theorem c2_busy_flag_witness :
    jsTrim ({ initialState with input := "first" } : AppState).input ≠ "" ∧
    ((submitStart { initialState with input := "first" } false).1.loading = true ∧
      (∀ (s' : AppState) (o : Outcome), (settle s' o).1.loading = false)) :=
  ⟨by decide, c2_busy_flag { initialState with input := "first" } false (by decide)⟩

/-- C6 fails on the code at a present-but-falsy `error` field: the branch
renders `err?.error || res.statusText`, which is a truthiness test, not a
presence test.  With status text "Internal Server Error" and body
`\x7b"error": ""\x7d` the `error` field is present, yet the rendered text is
"⚠️ Error: Internal Server Error" (the status text), not "⚠️ Error: "
followed by the present field. -/
theorem c6_counterexample :
    jfield (.obj [("error", .str "")]) "error" = some (.str "") ∧
    settleMsg (.httpErr "Internal Server Error" (some (.obj [("error", .str "")])))
      = Msg.mk "assistant" (.str "⚠️ Error: Internal Server Error") ∧
    ("⚠️ Error: Internal Server Error" : String) ≠ "⚠️ Error: " :=
  ⟨rfl, rfl, by decide⟩

/-- C6 amended: on an HTTP failure status the appended assistant text is
"⚠️ Error: " followed by the parsed body's `error` field when that field is
present and truthy (under JavaScript string coercion), and otherwise — field
absent, body unparseable, or field present but falsy such as the empty
string — the HTTP status text; status 500 "Internal Server Error" with body
`\x7b"error":"overloaded"\x7d` renders "⚠️ Error: overloaded" and with no
parseable body renders "⚠️ Error: Internal Server Error". -/
theorem c6_http_error_text :
    (∀ (st : String) (errBody : Option Json),
      settleMsg (.httpErr st errBody) = Msg.mk "assistant" (.str ("⚠️ Error: " ++
        (if truthyOpt (errBody.bind fun b => jfield b "error")
         then jsToString ((errBody.bind fun b => jfield b "error").getD .null)
         else st)))) ∧
    settleMsg (.httpErr "Internal Server Error" (some (.obj [("error", .str "overloaded")])))
      = Msg.mk "assistant" (.str "⚠️ Error: overloaded") ∧
    settleMsg (.httpErr "Internal Server Error" none)
      = Msg.mk "assistant" (.str "⚠️ Error: Internal Server Error") := by
  refine ⟨fun st errBody => rfl, ?_, rfl⟩
  have hj : jsToString (.str "overloaded") = "overloaded" := by
    simp [jsToString]
  show Msg.mk "assistant" (.str ("⚠️ Error: " ++ jsToString (.str "overloaded")))
    = Msg.mk "assistant" (.str "⚠️ Error: overloaded")
  rw [hj]
  rfl

end ArcChat
